import Mathlib

/-!
Verification of the MetaControllers pipeline engine.

The heart of the repository is `pycontroller/internal/manager.py`: a
declaration-time code generator.  `ControllerManager` collects up to three
stage functions (`action`, `filter`, `preference`), merges their call
signatures (`get_call_signature_args`), and synthesises one `call_fn`
(`generate_call_method`) that runs filter, then ranking, then action over a
collection called `partition`.

We embed this in two layers:

* a syntactic layer that mirrors the AST fragments the generator emits
  (`PExpr`, `action_generate_expression`, `filter_generate_expression`,
  `preference_generate_expression`, `pos_args_to_generate`,
  `call_signature_keyword_args`), and
* a semantic layer (`call_fn`) giving the meaning of the generated function:
  the stages are modelled as Lean functions, the generated
  `nsmallest(len(partition), xs, key=cmp_to_key(self.preference))`
  is modelled by a stable sort (`nsmallest`), and the shape of the returned
  object (materialized list / lazy iterator / the argument itself) is kept
  in `PySeq`.

`pycontroller/internal/signature_helper.py` is imported by the manager but is
not part of the sources; the manager only reads four attributes of its
result (`non_class_positional_args`, `keyword_arguments`, `has_arg_unpack`,
`has_kwarg_unpack`), so a `SignatureHelper` value is modelled as a record of
exactly those fields and every theorem quantifies over it.

`pycontroller2/internal/method_inspector.py` is embedded separately
(`method_inspector_init`, `parse_return_options`).
-/

namespace MetaControllers

/-! ### Names used by the code generator (constants of manager.py) -/

def PARTITION_NAME : String := "partition"
def CHOSEN_NAME : String := "chosen"
def GENERATED_ACTION_FN_NAME : String := "_action"
def GENERATED_FILTER_FN_NAME : String := "_filter"
def CLASS_ARG_NAME : String := "self"
def VAR_ARG_NAME : String := "args"
def KWARG_NAME : String := "kwargs"
def ACTION_FN_NAME : String := "action"
def FILTER_FN_NAME : String := "filter"
def PREFERENCE_FN_NAME : String := "preference"

/-- The stem of generated positional slot names (`POSITIONAL_ARG_PREFIX` in
manager.py). -/
def positional_arg_stem : String := "arg_"

/-- Name of the `heapq.nsmallest` helper referenced by the generated code. -/
def NSMALLEST_NAME : String := "nsmallest"

/-- Name of the builtin `len` referenced by the generated code. -/
def LEN_NAME : String := "len"

/-- Name of the `functools.cmp_to_key` helper referenced by the generated
code. -/
def CMP_TO_KEY_NAME : String := "cmp_to_key"

/-- The `key=` keyword of the generated `nsmallest` call. -/
def KEY_KEYWORD : String := "key"

/-- The signature data of one stage function, as read by `manager.py` from a
`SignatureHelper` object (`signature_helper.py` is not among the sources;
these are exactly the four attributes the manager consumes).  `δ` is the type
of Python default values. -/
structure SignatureHelper (δ : Type) where
  non_class_positional_args : List String
  keyword_arguments : List (String × δ)
  has_arg_unpack : Bool
  has_kwarg_unpack : Bool
deriving Repr, DecidableEq

/-- `Action.get_min_required_call_args`: 1 (`chosen`). -/
def action_min_required_call_args : Int := 1

/-- `Filter.get_min_required_call_args`: 1 (`chosen`). -/
def filter_min_required_call_args : Int := 1

/-- `Preference.get_min_required_call_args`: 2 (`a`, `b`). -/
def preference_min_required_call_args : Int := 2

/-- `ControllerManager.generate_positional_args`: the names
`arg_0 .. arg_(n-1)`.  Python's `range(n)` is empty for `n ≤ 0`, which
`Int.toNat` reproduces. -/
def generate_positional_args (num_args : Int) : List String :=
  (List.range num_args.toNat).map (fun i => positional_arg_stem ++ toString i)

/-- The `pos_args_to_generate` computation of
`ControllerManager.get_call_signature_args` (manager.py lines 272-300):
starting from 0, fold `max` with `len(non_class_positional_args) -
get_min_required_call_args()` of each present stage, in the source order
action, preference, filter. -/
def pos_args_to_generate {δ : Type}
    (action filter preference : Option (SignatureHelper δ)) : Int :=
  let p0 : Int := 0
  let p1 := match action with
    | some a =>
        max ((a.non_class_positional_args.length : Int)
          - action_min_required_call_args) p0
    | none => p0
  let p2 := match preference with
    | some p =>
        max ((p.non_class_positional_args.length : Int)
          - preference_min_required_call_args) p1
    | none => p1
  match filter with
  | some f =>
      max ((f.non_class_positional_args.length : Int)
        - filter_min_required_call_args) p2
  | none => p2

/-- The keyword arguments a stage contributes: its declared
`keyword_arguments` when present, nothing when absent. -/
def stage_keyword_args {δ : Type} :
    Option (SignatureHelper δ) → List (String × δ)
  | some s => s.keyword_arguments
  | none => []

/-- The keyword-parameter block of the merged signature
(`get_call_signature_args`, manager.py lines 302-314): the keyword arguments
of the present stages are appended in the order action, filter, preference.
The source performs no union or de-duplication. -/
def call_signature_keyword_args {δ : Type}
    (action filter preference : Option (SignatureHelper δ)) :
    List (String × δ) :=
  stage_keyword_args action ++ stage_keyword_args filter
    ++ stage_keyword_args preference

/-- How often a keyword parameter of the given name occurs in a keyword
block. -/
def keyword_occurrences {δ : Type} (n : String)
    (kws : List (String × δ)) : Nat :=
  (kws.filter (fun kv => kv.1 == n)).length

/-- The merged variadic-positional flag (`has_var_arg`, manager.py lines
316-326): OR of `has_arg_unpack` over the present stages. -/
def call_signature_has_var_arg {δ : Type}
    (action filter preference : Option (SignatureHelper δ)) : Bool :=
  (match action with | some a => a.has_arg_unpack | none => false)
    || (match filter with | some f => f.has_arg_unpack | none => false)
    || (match preference with | some p => p.has_arg_unpack | none => false)

/-- The merged variadic-keyword flag (`has_kwarg`, manager.py lines
328-338): OR of `has_kwarg_unpack` over the present stages. -/
def call_signature_has_kwarg {δ : Type}
    (action filter preference : Option (SignatureHelper δ)) : Bool :=
  (match action with | some a => a.has_kwarg_unpack | none => false)
    || (match filter with | some f => f.has_kwarg_unpack | none => false)
    || (match preference with | some p => p.has_kwarg_unpack | none => false)

/-- The full parameter-name list of the generated `call_fn`
(`get_call_signature_args`): `self`, `partition`, the generated positional
slots, then the keyword parameters of the stages in order. -/
def call_signature_arg_names {δ : Type}
    (action filter preference : Option (SignatureHelper δ)) : List String :=
  [CLASS_ARG_NAME, PARTITION_NAME]
    ++ generate_positional_args (pos_args_to_generate action filter preference)
    ++ (call_signature_keyword_args action filter preference).map (·.1)

/-! ### The AST fragments produced by the stage wrappers -/

/-- A fragment of Python expression syntax, just large enough for the
expressions `Action.generate_expression`, `Filter.generate_expression` and
`Preference.generate_expression` build.  `pcall f args kwargs` is
`ast.Call`; a keyword entry with name `none` is a `**` unpack; `pstarred`
is `ast.Starred`; `generator_exp elt target iter cond` is the generator
expression `(elt for target in iter if cond)`; `list_comp` likewise. -/
inductive PExpr where
  | pname (s : String)
  | self_attr (s : String)
  | pcall (f : PExpr) (args : List PExpr) (kwargs : List (Option String × PExpr))
  | pstarred (e : PExpr)
  | generator_exp (elt : PExpr) (target : String) (iter : PExpr) (cond : PExpr)
  | list_comp (elt : PExpr) (target : String) (iter : PExpr)

/-- The positional argument expressions an Action or Filter stage call
forwards (manager.py lines 51-64 and 102-115): `chosen`, then
`arg_0 .. arg_(k-1)` where `k = len(non_class_positional_args) -
min_required`, then a starred `args` if the stage declares `*args`. -/
def stage_call_args {δ : Type} (sig : SignatureHelper δ)
    (min_required : Int) : List PExpr :=
  [PExpr.pname CHOSEN_NAME]
    ++ (generate_positional_args
        ((sig.non_class_positional_args.length : Int) - min_required)).map
        PExpr.pname
    ++ (if sig.has_arg_unpack then [PExpr.pstarred (PExpr.pname VAR_ARG_NAME)]
        else [])

/-- The keyword argument entries an Action or Filter stage call forwards
(manager.py lines 66-77 and 117-128): each declared keyword is forwarded by
its own name, then a `**kwargs` entry if the stage declares one. -/
def stage_call_kwargs {δ : Type} (sig : SignatureHelper δ) :
    List (Option String × PExpr) :=
  sig.keyword_arguments.map (fun kv => (some kv.1, PExpr.pname kv.1))
    ++ (if sig.has_kwarg_unpack then [(none, PExpr.pname KWARG_NAME)] else [])

/-- `Action.generate_expression` (manager.py lines 47-91): the call
`_action(chosen, arg_0, ..., *args, kw=kw, ..., **kwargs)`. -/
def action_generate_expression {δ : Type} (sig : SignatureHelper δ) : PExpr :=
  PExpr.pcall (PExpr.pname GENERATED_ACTION_FN_NAME)
    (stage_call_args sig action_min_required_call_args)
    (stage_call_kwargs sig)

/-- `Filter.generate_expression` (manager.py lines 98-165).  When the stage
call carries anything beyond the reserved `chosen`
(`len(args) + len(kwargs) > 1`) the generator emits
`(chosen for chosen in partition if _filter(chosen, ...))`; otherwise the
fast path `filter(self.filter, partition)`. -/
def filter_generate_expression {δ : Type} (sig : SignatureHelper δ) : PExpr :=
  let args := stage_call_args sig filter_min_required_call_args
  let kwargs := stage_call_kwargs sig
  if args.length + kwargs.length > 1 then
    PExpr.generator_exp (PExpr.pname CHOSEN_NAME) CHOSEN_NAME
      (PExpr.pname PARTITION_NAME)
      (PExpr.pcall (PExpr.pname GENERATED_FILTER_FN_NAME) args kwargs)
  else
    PExpr.pcall (PExpr.pname FILTER_FN_NAME)
      [PExpr.self_attr FILTER_FN_NAME, PExpr.pname PARTITION_NAME] []

/-- `Preference.generate_expression` (manager.py lines 172-201): the call
`nsmallest(len(partition), sub, key=cmp_to_key(self.preference))`.  The
comparator is handed to `cmp_to_key` as the bare bound method
`self.preference`; no further argument expressions appear. -/
def preference_generate_expression (get_elements_expression : PExpr) : PExpr :=
  PExpr.pcall (PExpr.pname NSMALLEST_NAME)
    [PExpr.pcall (PExpr.pname LEN_NAME) [PExpr.pname PARTITION_NAME] [],
      get_elements_expression]
    [(some KEY_KEYWORD,
      PExpr.pcall (PExpr.pname CMP_TO_KEY_NAME)
        [PExpr.self_attr PREFERENCE_FN_NAME] [])]

/-- The expression `generate_call_method` returns (manager.py lines
351-384): start from `partition`, replace it by the filter expression when a
filter is present, wrap in the preference expression when a preference is
present, and wrap in `[action(chosen, ...) for chosen in ...]` when an
action is present. -/
def generate_call_expression {δ : Type}
    (action filter preference : Option (SignatureHelper δ)) : PExpr :=
  let get_elements := PExpr.pname PARTITION_NAME
  let get_elements := match filter with
    | some f => filter_generate_expression f
    | none => get_elements
  let get_elements := match preference with
    | some _ => preference_generate_expression get_elements
    | none => get_elements
  match action with
  | some a =>
      PExpr.list_comp (action_generate_expression a) CHOSEN_NAME get_elements
  | none => get_elements

mutual

/-- All names (`ast.Name` occurrences) referenced by an expression, in
left-to-right order.  Attribute accesses on `self` reference no plain name. -/
def PExpr.ref_names : PExpr → List String
  | .pname s => [s]
  | .self_attr _ => []
  | .pstarred e => e.ref_names
  | .pcall f args kwargs =>
      f.ref_names ++ ref_names_args args ++ ref_names_kwargs kwargs
  | .generator_exp elt _ iter cond =>
      elt.ref_names ++ iter.ref_names ++ cond.ref_names
  | .list_comp elt _ iter => elt.ref_names ++ iter.ref_names

def ref_names_args : List PExpr → List String
  | [] => []
  | e :: es => e.ref_names ++ ref_names_args es

def ref_names_kwargs : List (Option String × PExpr) → List String
  | [] => []
  | kv :: es => kv.2.ref_names ++ ref_names_kwargs es

end

/-- The argument list of a call expression (empty for non-calls). -/
def PExpr.pcall_args : PExpr → List PExpr
  | .pcall _ args _ => args
  | _ => []

/-- The `if` condition of a generator expression (the expression itself for
other forms). -/
def PExpr.genexp_cond : PExpr → PExpr
  | .generator_exp _ _ _ cond => cond
  | e => e

/-- The plain names among a list of argument expressions (starred entries
are the variadic payload, not positional arguments by name). -/
def plain_arg_names : List PExpr → List String
  | [] => []
  | .pname s :: es => s :: plain_arg_names es
  | _ :: es => plain_arg_names es

/-- Whether the first character list is an initial segment of the
second. -/
def stem_matches : List Char → List Char → Bool
  | [], _ => true
  | _ :: _, [] => false
  | c :: cs, d :: ds => c == d && stem_matches cs ds

/-- The extra positional slot names (`arg_i`) among the names referenced by
an expression. -/
def forwarded_extra_slots (e : PExpr) : List String :=
  e.ref_names.filter (fun s => stem_matches positional_arg_stem.data s.data)

/-- The keyword entries of a call expression (empty for non-calls). -/
def PExpr.pcall_kwargs : PExpr → List (Option String × PExpr)
  | .pcall _ _ kwargs => kwargs
  | _ => []

/-- A stage's extra-positional demand exactly as the spec words it: the
stage's positional parameter count minus its role-reserved count, floored
at 0; an absent stage demands nothing. -/
def stage_floor_diff {δ : Type} (stage : Option (SignatureHelper δ))
    (reserved : Int) : Int :=
  match stage with
  | some s => max ((s.non_class_positional_args.length : Int) - reserved) 0
  | none => 0

/-- The merged extra-positional count as the spec words it (for comparison
with the source's `pos_args_to_generate`): the maximum over the present
stages of their floored extra-positional demands. -/
def spec_merged_extra_positional_count {δ : Type}
    (action filter preference : Option (SignatureHelper δ)) : Int :=
  max (max (stage_floor_diff action action_min_required_call_args)
      (stage_floor_diff preference preference_min_required_call_args))
    (stage_floor_diff filter filter_min_required_call_args)

/-! ### Semantics of the generated pipeline

The generated `call_fn` receives `partition` and returns either the
argument itself, a lazy iterator, or a freshly materialized list.  The
constructor records which of the three the generated return expression is;
`elems` is the sequence of elements it yields. -/

inductive PySeq (α : Type) where
  /-- The `partition` argument object, returned as-is. -/
  | arg_ref (l : List α)
  /-- A lazy, one-shot iterator: a generator expression or a builtin
  `filter` object. -/
  | iterator (l : List α)
  /-- A freshly materialized list: a list comprehension or the list
  returned by `nsmallest`. -/
  | materialized (l : List α)
deriving Repr, DecidableEq

def PySeq.elems {α : Type} : PySeq α → List α
  | .arg_ref l => l
  | .iterator l => l
  | .materialized l => l

/-- Whether the pipeline result is a lazy one-shot iterator. -/
def PySeq.is_lazy {α : Type} : PySeq α → Bool
  | .iterator _ => true
  | _ => false

/-- Whether the pipeline result is a freshly materialized list. -/
def PySeq.is_materialized {α : Type} : PySeq α → Bool
  | .materialized _ => true
  | _ => false

/-- The order `functools.cmp_to_key cmp` induces on keys: Python's sorted
places `x` no later than `y` exactly when `cmp x y ≤ 0`. -/
def cmp_le {α : Type} (cmp : α → α → Int) (a b : α) : Bool :=
  cmp a b ≤ 0

/-- Model of `heapq.nsmallest(n, xs, key=cmp_to_key cmp)`.  Per its
documentation `nsmallest` is equivalent to `sorted(xs, key=key)[:n]`, and
CPython's `sorted` is a stable sort; for a comparator inducing a total
preorder this is exactly `List.mergeSort` with `cmp_le cmp`. -/
def nsmallest {α : Type} (n : Nat) (cmp : α → α → Int) (l : List α) :
    List α :=
  (l.mergeSort (cmp_le cmp)).take n

/-- Semantics of the function `ControllerManager.generate_call_method`
synthesises (manager.py lines 351-384), with each stage function already
bound to the invocation's extra arguments: `filt` is the filter predicate,
`cmp` the preference comparator, `act` the action transform.  Mirroring the
source: `get_elements` starts as the `partition` argument; a present filter
replaces it by a lazy iterator over the elements satisfying the predicate
(both the builtin `filter` fast path and the generator-expression path);
a present preference replaces it by the list
`nsmallest(len(partition), get_elements, key=cmp_to_key(self.preference))`;
a present action wraps it in the list comprehension mapping the action over
the chosen elements. -/
def call_fn {δ α : Type} (action filter preference : Option (SignatureHelper δ))
    (filt : α → Bool) (cmp : α → α → Int) (act : α → α)
    (partition : List α) : PySeq α :=
  let get_elements : PySeq α := PySeq.arg_ref partition
  let get_elements := match filter with
    | some _ => PySeq.iterator (partition.filter filt)
    | none => get_elements
  let get_elements := match preference with
    | some _ =>
        PySeq.materialized (nsmallest partition.length cmp get_elements.elems)
    | none => get_elements
  match action with
  | some _ => PySeq.materialized (get_elements.elems.map act)
  | none => get_elements

/-! ### pycontroller2: MethodInspector -/

/-- `InspectionError` as the spec names it; no such class exists in the
sources, so the type only marks the error position a fatal inspection
failure would occupy. -/
inductive InspectionError where
  | unreadable
deriving Repr, DecidableEq

/-- The flag block `MethodInspector._parse_return_options` computes
(method_inspector.py lines 85-90 and 169-180) together with its
`has_parse_error` flag. -/
structure ReturnOptions where
  has_explicit_void_return : Bool
  has_explicit_value_return : Bool
  has_value_yield : Bool
  has_value_yield_from : Bool
  has_parse_error : Bool
deriving Repr, DecidableEq

/-- What the `InnerReturnVisitor` reports when `inspect.getsource` and
`ast.parse` succeed on the callable. -/
structure VisitorFlags where
  has_explicit_void_return : Bool
  has_explicit_value_return : Bool
  has_value_yield : Bool
  has_value_yield_from : Bool
deriving Repr, DecidableEq

/-- `MethodInspector._parse_return_options` (method_inspector.py lines
72-180).  `parsed` is `some` of the visitor's flags when the callable's
source can be fetched and parsed, `none` when any step raises.  The
`except BaseException` branch does not re-raise: it emits a warning and
records `has_parse_error = True`, leaving the four pre-set `False` flags in
place.  The returned Bool is whether a warning was emitted. -/
def parse_return_options (parsed : Option VisitorFlags) :
    ReturnOptions × Bool :=
  match parsed with
  | some v =>
      (⟨v.has_explicit_void_return, v.has_explicit_value_return,
        v.has_value_yield, v.has_value_yield_from, false⟩, false)
  | none => (⟨false, false, false, false, true⟩, true)

/-- The outcome of running `_parse_return_options` as the spec's error model
would see it: `.error` would mean an `InspectionError` propagates.  The
source's `try`/`except BaseException` catches everything and returns
normally, so every input yields `.ok`. -/
def parse_return_options_outcome (parsed : Option VisitorFlags) :
    Except InspectionError ReturnOptions :=
  Except.ok (parse_return_options parsed).1

/-- What `MethodInspector.__init__` (method_inspector.py lines 9-29) reads
off the object it is given: whether `callable(fn)` holds, `fn.__name__`
(absent when the attribute access raises), whether the object has a
`__wrapped__` attribute, and — for the wrapped target and for the object
itself — what `inspect.getfullargspec`/`signature_to_dict` yield on it:
`some` of the signature data (`σ`) when the target is introspectable,
`none` when those calls raise (as they do for opaque native callables such
as `min`, and for a non-inspectable `__wrapped__` target). -/
structure PyCallableObj (σ : Type) where
  is_callable : Bool
  dunder_name : Option String
  has_wrapped : Bool
  wrapped_argspec : Option σ
  own_argspec : Option σ
deriving Repr, DecidableEq

/-- The state `MethodInspector.__init__` establishes on success. -/
structure InspectorState (σ : Type) where
  spec : σ
  is_wrapped : Bool
deriving Repr, DecidableEq

/-- An exception escaping `MethodInspector.__init__`: the explicit
`ValueError` for non-callables, or the exception `inspect.getfullargspec` /
`inspect.signature` raise on a non-introspectable target — those calls sit
outside any `try`, so it propagates and no inspector is produced. -/
inductive InitError where
  | value_error (msg : String)
  | type_error
deriving Repr, DecidableEq

/-- The introspection target `__init__` commits to: `fn.__wrapped__`'s
signature data when the attribute exists, the callable's own otherwise
(`none` when `inspect.getfullargspec` raises on that target). -/
def inspection_target {σ : Type} (fn : PyCallableObj σ) : Option σ :=
  if fn.has_wrapped then fn.wrapped_argspec else fn.own_argspec

/-- `MethodInspector.__init__`: a non-callable input raises `ValueError`
naming the object (falling back to `UNKNOWN` when `__name__` is missing);
otherwise `inspect.getfullargspec`/`signature_to_dict` run — outside any
`try` — on `fn.__wrapped__` when that attribute exists and on `fn` itself
otherwise, so their exception propagates when the target is not
introspectable, and only an introspectable target yields an inspector. -/
def method_inspector_init {σ : Type} (fn : PyCallableObj σ) :
    Except InitError (InspectorState σ) :=
  if fn.is_callable then
    if fn.has_wrapped then
      match fn.wrapped_argspec with
      | some w => Except.ok { spec := w, is_wrapped := true }
      | none => Except.error InitError.type_error
    else
      match fn.own_argspec with
      | some s => Except.ok { spec := s, is_wrapped := false }
      | none => Except.error InitError.type_error
  else
    Except.error (InitError.value_error
      ("MethodInspector expected a callable object, but \""
        ++ (match fn.dunder_name with
            | some n => n
            | none => "UNKNOWN")
        ++ "\" is not."))

/-! ### Ranking shortcut validation (not present under src/)

The test suite (`test/test_preference_attributes.py`) exercises the
declaration-time validation of the attributes `sort`, `sort_reverse` and
the sort key / comparator, but the module performing that validation is not
among the sources (`ControllerManager.validate_class_methods` in
manager.py is a stub). -/

/-- A declaration-time configuration error of the ranking shortcut
resolver. -/
inductive ConfigurationError where
  /-- R1: `sort` together with an explicit preference comparator. -/
  | sort_with_preference
  /-- R2: `sort` together with `sort_key`. -/
  | sort_with_sort_key
  /-- R3: `sort_reverse` with none of `sort`, `sort_key`, preference. -/
  | reverse_alone
deriving Repr, DecidableEq

/-- Modelled from the spec: the ranking-shortcut validation of §4.5 (rules
R1-R3), which is missing from src/ — `validate_class_methods` is a stub and
no module under src/ reads the `sort`, `sort_reverse`, `sort_key`
attributes; only the tests exercise it.  Declaring `sort` together with an
explicit preference comparator (R1) or with `sort_key` (R2) is a
declaration-time error, as is `sort_reverse` with none of `sort`,
`sort_key`, or a preference (R3). -/
def validate_ranking_flags (sort sort_reverse : Bool)
    (has_sort_key has_preference : Bool) : Except ConfigurationError Unit :=
  if sort && has_preference then
    Except.error ConfigurationError.sort_with_preference
  else if sort && has_sort_key then
    Except.error ConfigurationError.sort_with_sort_key
  else if sort_reverse && !(sort || has_sort_key || has_preference) then
    Except.error ConfigurationError.reverse_alone
  else
    Except.ok ()

/-- Modelled from the spec: class declaration runs the §4.5 validation
before the pipeline is built; on a validation error the class never becomes
usable and no pipeline is produced.  On success the declared unit's
pipeline is the generated `call_fn`. -/
def declare_controller {δ α : Type}
    (action filter preference : Option (SignatureHelper δ))
    (sort sort_reverse : Bool) (has_sort_key : Bool) :
    Except ConfigurationError
      ((α → Bool) → (α → α → Int) → (α → α) → List α → PySeq α) :=
  match validate_ranking_flags sort sort_reverse has_sort_key
      preference.isSome with
  | Except.error e => Except.error e
  | Except.ok _ =>
      Except.ok (fun filt cmp act partition =>
        call_fn action filter preference filt cmp act partition)

/-! ### Statement vocabulary and concrete sample signatures -/

/-- `ranked` is a correct stable full sort of `survivors` under the pairwise
comparator `cmp`: a permutation of all survivors, pairwise non-descending
(`cmp a b ≤ 0` along the list), never placing `b` before `a` when the
comparator strictly prefers `a` (`cmp a b < 0`), and keeping every tied pair
(`cmp a b = 0`) in its original relative order. -/
def ranking_correct {α : Type} (cmp : α → α → Int)
    (survivors ranked : List α) : Prop :=
  ranked.Perm survivors
    ∧ ranked.Pairwise (fun a b => cmp a b ≤ 0)
    ∧ ranked.Pairwise (fun a b => ¬ (cmp b a < 0))
    ∧ ∀ a b : α, cmp a b = 0 → List.Sublist [a, b] survivors →
        List.Sublist [a, b] ranked

/-- A typical filter stage `def filter(self, chosen)`: one reserved
positional parameter, no extras. -/
def sample_filter_sig : SignatureHelper Int :=
  { non_class_positional_args := [CHOSEN_NAME],
    keyword_arguments := [],
    has_arg_unpack := false,
    has_kwarg_unpack := false }

/-- A typical preference stage `def preference(self, a, b)`: the two
reserved comparison parameters, no extras. -/
def sample_pref_sig : SignatureHelper Int :=
  { non_class_positional_args := ["a", "b"],
    keyword_arguments := [],
    has_arg_unpack := false,
    has_kwarg_unpack := false }

/-- A preference stage `def preference(self, a, b, c)` declaring one extra
positional parameter beyond the reserved pair. -/
def sample_pref_extra_sig : SignatureHelper Int :=
  { non_class_positional_args := ["a", "b", "c"],
    keyword_arguments := [],
    has_arg_unpack := false,
    has_kwarg_unpack := false }

/-- A filter stage `def filter(self, chosen, x)` declaring one extra
positional parameter beyond the reserved candidate. -/
def sample_filter_extra_sig : SignatureHelper Int :=
  { non_class_positional_args := [CHOSEN_NAME, "x"],
    keyword_arguments := [],
    has_arg_unpack := false,
    has_kwarg_unpack := false }

/-- An action stage declaring the keyword parameter `shared_kw` with
default 1. -/
def sample_action_kw_sig : SignatureHelper Int :=
  { non_class_positional_args := [CHOSEN_NAME],
    keyword_arguments := [("shared_kw", 1)],
    has_arg_unpack := false,
    has_kwarg_unpack := false }

/-- A filter stage declaring the same keyword parameter `shared_kw` with a
different default, 2. -/
def sample_filter_kw_sig : SignatureHelper Int :=
  { non_class_positional_args := [CHOSEN_NAME],
    keyword_arguments := [("shared_kw", 2)],
    has_arg_unpack := false,
    has_kwarg_unpack := false }

/-! ### Theorems -/

/-- Auxiliary: a present preference wraps the survivors in
`nsmallest(len(partition), -, ...)`, and since the survivors are never more
numerous than `partition`, the `take` implicit in `nsmallest` keeps the
whole sorted list. -/
theorem nsmallest_partition_length {α : Type} (cmp : α → α → Int)
    (partition survivors : List α)
    (h : survivors.length ≤ partition.length) :
    nsmallest partition.length cmp survivors
      = survivors.mergeSort (cmp_le cmp) := by
  unfold nsmallest
  exact List.take_of_length_le (by simpa using h)

/-- Auxiliary: the elements yielded by the generated pipeline equal the
action stage mapped over the ranking stage applied to the filter stage's
survivors, each stage defaulting to the identity when absent. -/
theorem call_fn_elems_eq {δ α : Type}
    (A F P : Option (SignatureHelper δ)) (filt : α → Bool)
    (cmp : α → α → Int) (act : α → α) (l : List α) :
    (call_fn A F P filt cmp act l).elems =
      (match A with
        | some _ => fun s : List α => s.map act
        | none => id)
      ((match P with
        | some _ => fun s : List α => s.mergeSort (cmp_le cmp)
        | none => id)
       ((match F with
        | some _ => fun s : List α => s.filter filt
        | none => id) l)) := by
  have hfull : nsmallest l.length cmp l = l.mergeSort (cmp_le cmp) :=
    nsmallest_partition_length cmp l l (Nat.le_refl _)
  have hfilter : nsmallest l.length cmp (l.filter filt)
      = (l.filter filt).mergeSort (cmp_le cmp) :=
    nsmallest_partition_length cmp l (l.filter filt)
      (List.length_filter_le filt l)
  rcases A with _ | a <;> rcases F with _ | f <;> rcases P with _ | p <;>
    simp [call_fn, PySeq.elems, hfull, hfilter]

/-- Claim C1: every pipeline built from any subset of the three stages
evaluates them in the fixed order filter, then rank, then action — the
filter predicate restricts the input elements first, the comparator
(stably) reorders exactly the filter survivors, and the action transform is
applied after ranking, in ranked order; every absent stage is the
identity. -/
theorem claim_C1_fixed_stage_order {δ α : Type}
    (A F P : Option (SignatureHelper δ)) (filt : α → Bool)
    (cmp : α → α → Int) (act : α → α) (l : List α) :
    (call_fn A F P filt cmp act l).elems =
      (match A with
        | some _ => fun s : List α => s.map act
        | none => id)
      ((match P with
        | some _ => fun s : List α => s.mergeSort (cmp_le cmp)
        | none => id)
       ((match F with
        | some _ => fun s : List α => s.filter filt
        | none => id) l)) :=
  call_fn_elems_eq A F P filt cmp act l

/-- Claim C7: a pipeline with no filter, no preference and no action
returns the input elements unchanged, in order; and each absent stage
individually behaves as the identity — an absent filter keeps every
element, an absent preference keeps the filter-stage order, an absent
action yields each candidate itself. -/
theorem claim_C7_absent_stages_identity {δ α : Type}
    (filt : α → Bool) (cmp : α → α → Int) (act : α → α) :
    (∀ l : List α,
      (call_fn (δ := δ) none none none filt cmp act l).elems = l)
    ∧ (∀ (A P : Option (SignatureHelper δ)) (l : List α),
      (call_fn A none P filt cmp act l).elems =
        (match A with
          | some _ => fun s : List α => s.map act
          | none => id)
        ((match P with
          | some _ => fun s : List α => s.mergeSort (cmp_le cmp)
          | none => id) l))
    ∧ (∀ (A F : Option (SignatureHelper δ)) (l : List α),
      (call_fn A F none filt cmp act l).elems =
        (match A with
          | some _ => fun s : List α => s.map act
          | none => id)
        ((match F with
          | some _ => fun s : List α => s.filter filt
          | none => id) l))
    ∧ (∀ (F P : Option (SignatureHelper δ)) (l : List α),
      (call_fn none F P filt cmp act l).elems =
        (match P with
          | some _ => fun s : List α => s.mergeSort (cmp_le cmp)
          | none => id)
        ((match F with
          | some _ => fun s : List α => s.filter filt
          | none => id) l)) := by
  refine ⟨fun l => ?_, fun A P l => ?_, fun A F l => ?_, fun F P l => ?_⟩
  · simpa using call_fn_elems_eq (δ := δ) none none none filt cmp act l
  · simpa using call_fn_elems_eq A none P filt cmp act l
  · simpa using call_fn_elems_eq A F none filt cmp act l
  · simpa using call_fn_elems_eq none F P filt cmp act l

/-- Counterexample to claim C8: a pipeline with a filter stage but no
action and no preference stage returns the lazy one-shot iterator produced
by the filter step (a builtin `filter` object or generator expression), not
a materialized sequence — here on the concrete input `[5, 3, 9, 1]` with
the predicate `2 < x`. -/
theorem claim_C8_counterexample :
    (call_fn (δ := Int) (α := Int) none (some sample_filter_sig) none
        (fun x => decide (2 < x)) (fun a b => a - b) id
        [5, 3, 9, 1]).is_lazy = true := by
  rfl

/-- Claim C8 (amended): the pipeline's return value is a freshly
materialized list exactly when an action or a preference stage is present
(list comprehension, respectively `nsmallest` result); with only a filter
stage it is a lazy one-shot iterator; with no stage at all the `partition`
argument itself is returned. -/
theorem claim_C8_amended_result_shape {δ α : Type}
    (A F P : Option (SignatureHelper δ)) (filt : α → Bool)
    (cmp : α → α → Int) (act : α → α) (l : List α) :
    ((call_fn A F P filt cmp act l).is_materialized
        = (A.isSome || P.isSome))
    ∧ ((call_fn A F P filt cmp act l).is_lazy
        = (F.isSome && !A.isSome && !P.isSome))
    ∧ (call_fn (δ := δ) none none none filt cmp act l
        = PySeq.arg_ref l) := by
  refine ⟨?_, ?_, rfl⟩ <;>
    rcases A with _ | a <;> rcases F with _ | f <;> rcases P with _ | p <;>
      simp [call_fn, PySeq.is_materialized, PySeq.is_lazy]

/-- Claim C3: with a preference stage present, the ranking step returns a
permutation of all filter survivors — not a top-K prefix, despite going
through `nsmallest` — sorted so that `a` precedes `b` whenever
`cmp a b < 0`, and tied elements keep their relative order from the
filtered sequence.  The comparator is assumed valid: transitive in the
non-strict sense and sign-antisymmetric. -/
theorem claim_C3_stable_full_sort {δ α : Type}
    (F : Option (SignatureHelper δ)) (sigP : SignatureHelper δ)
    (filt : α → Bool) (cmp : α → α → Int) (act : α → α) (l : List α)
    (htrans : ∀ a b c : α, cmp a b ≤ 0 → cmp b c ≤ 0 → cmp a c ≤ 0)
    (hasym : ∀ a b : α, cmp a b < 0 ↔ 0 < cmp b a) :
    ranking_correct cmp
      (match F with
        | some _ => l.filter filt
        | none => l)
      (call_fn none F (some sigP) filt cmp act l).elems := by
  have btrans : ∀ a b c : α, cmp_le cmp a b → cmp_le cmp b c →
      cmp_le cmp a c := by
    intro a b c h1 h2
    simp only [cmp_le, decide_eq_true_eq] at h1 h2 ⊢
    exact htrans a b c h1 h2
  have btotal : ∀ a b : α, cmp_le cmp a b || cmp_le cmp b a := by
    intro a b
    simp only [cmp_le, Bool.or_eq_true, decide_eq_true_eq]
    by_cases h : cmp a b ≤ 0
    · exact Or.inl h
    · refine Or.inr ?_
      have : cmp b a < 0 := (hasym b a).mpr (by omega)
      omega
  have helems : (call_fn none F (some sigP) filt cmp act l).elems =
      (match F with
        | some _ => l.filter filt
        | none => l).mergeSort (cmp_le cmp) := by
    have h := call_fn_elems_eq none F (some sigP) filt cmp act l
    rcases F with _ | f <;> simpa using h
  rw [helems]
  generalize (match F with
    | some _ => l.filter filt
    | none => l) = s
  refine ⟨List.mergeSort_perm s (cmp_le cmp), ?_, ?_, ?_⟩
  · have h := List.sorted_mergeSort btrans btotal s
    refine h.imp ?_
    intro a b hab
    simpa [cmp_le] using hab
  · have h := List.sorted_mergeSort btrans btotal s
    refine h.imp ?_
    intro a b hab
    have hle : cmp a b ≤ 0 := by simpa [cmp_le] using hab
    intro hlt
    have : 0 < cmp a b := (hasym b a).mp hlt
    omega
  · intro a b hab hsub
    refine List.pair_sublist_mergeSort btrans btotal ?_ hsub
    simp [cmp_le, hab]

/-- Witness for claim C3: the concrete scenario of the spec — elements
`[5, 3, 9, 1]`, filter `2 < x`, comparator `a - b`. -/
theorem claim_C3_stable_full_sort_witness :
    ranking_correct (fun a b : Int => a - b)
      ([5, 3, 9, 1].filter (fun x => decide (2 < x)))
      (call_fn (δ := Int) none (some sample_filter_sig) (some sample_pref_sig)
        (fun x => decide (2 < x)) (fun a b : Int => a - b) id
        [5, 3, 9, 1]).elems :=
  claim_C3_stable_full_sort (some sample_filter_sig) sample_pref_sig
    (fun x => decide (2 < x)) (fun a b : Int => a - b) id [5, 3, 9, 1]
    (by intro a b c h1 h2; dsimp only at h1 h2 ⊢; omega)
    (by intro a b; dsimp only; omega)

/-- Counterexample to claim C2: when the action stage and the filter stage
both declare the keyword parameter `shared_kw` (with defaults 1 and 2), the
merged keyword block of `get_call_signature_args` contains the name twice —
not exactly once — because the source appends the stages' keyword lists
without any union by name.  (Unparsing and compiling a `def` with a
duplicated parameter name is a `SyntaxError` in the host language, so the
collision is an error at declaration time rather than a recorded
first-priority default.) -/
theorem claim_C2_counterexample :
    keyword_occurrences ("shared_kw")
        (call_signature_keyword_args (some sample_action_kw_sig)
          (some sample_filter_kw_sig) none) = 2
      ∧ call_signature_keyword_args (some sample_action_kw_sig)
          (some sample_filter_kw_sig) none
        = [("shared_kw", 1), ("shared_kw", 2)]
      ∧ ¬ keyword_occurrences ("shared_kw")
          (call_signature_keyword_args (some sample_action_kw_sig)
            (some sample_filter_kw_sig) none) = 1 := by
  refine ⟨rfl, rfl, ?_⟩
  decide

/-- Claim C2 (amended): the merged keyword block concatenates the keyword
parameters of the present stages in the fixed priority order action,
filter, preference, with no de-duplication: a name declared by several
stages occurs once per declaring stage (its first occurrence — the one a
reader of the generated signature sees first — does carry the default of
the first declaring stage in priority order), and a collision therefore
surfaces as a duplicated parameter of the generated function definition
instead of being silently unioned. -/
theorem claim_C2_amended_keyword_concatenation {δ : Type}
    (A F P : Option (SignatureHelper δ)) (n : String) :
    (call_signature_keyword_args A F P
        = stage_keyword_args A ++ stage_keyword_args F
          ++ stage_keyword_args P)
      ∧ (keyword_occurrences n (call_signature_keyword_args A F P)
        = keyword_occurrences n (stage_keyword_args A)
          + keyword_occurrences n (stage_keyword_args F)
          + keyword_occurrences n (stage_keyword_args P))
      ∧ ((call_signature_keyword_args A F P).find? (fun kv => kv.1 == n)
        = (((stage_keyword_args A).find? (fun kv => kv.1 == n)).or
            ((stage_keyword_args F).find? (fun kv => kv.1 == n))).or
          ((stage_keyword_args P).find? (fun kv => kv.1 == n))) := by
  refine ⟨rfl, ?_, ?_⟩
  · simp only [call_signature_keyword_args, keyword_occurrences,
      List.filter_append, List.length_append]
  · simp only [call_signature_keyword_args, List.find?_append]

/-- Auxiliary: `plain_arg_names` distributes over concatenation. -/
theorem plain_arg_names_append (xs ys : List PExpr) :
    plain_arg_names (xs ++ ys) = plain_arg_names xs ++ plain_arg_names ys := by
  induction xs with
  | nil => rfl
  | cons e es ih => cases e <;> simp [plain_arg_names, ih]

/-- Auxiliary: the plain names of a list of name expressions are the names
themselves. -/
theorem plain_arg_names_map_pname (xs : List String) :
    plain_arg_names (xs.map PExpr.pname) = xs := by
  induction xs with
  | nil => rfl
  | cons s ss ih => simp [plain_arg_names, ih]

/-- Auxiliary: the positional argument names a stage call forwards are the
reserved `chosen` followed by the stage's own generated slots; a trailing
`*args` unpack contributes no named slot. -/
theorem plain_arg_names_stage_call {δ : Type} (sig : SignatureHelper δ)
    (reserved : Int) :
    plain_arg_names (stage_call_args sig reserved)
      = CHOSEN_NAME :: generate_positional_args
          ((sig.non_class_positional_args.length : Int) - reserved) := by
  unfold stage_call_args
  cases h : sig.has_arg_unpack <;>
    simp [plain_arg_names_append, plain_arg_names, plain_arg_names_map_pname]

/-- Auxiliary: a shorter block of generated positional slots is the prefix
of a longer one. -/
theorem generate_positional_args_take {m n : Int} (h : m ≤ n) :
    generate_positional_args m
      = (generate_positional_args n).take m.toNat := by
  unfold generate_positional_args
  rw [← List.map_take, List.take_range,
    Nat.min_eq_left (Int.toNat_le_toNat h)]

/-- Auxiliary: the source's merged positional count agrees with the spec's
formula — the maximum of the per-stage floored demands. -/
theorem pos_args_to_generate_eq_spec {δ : Type}
    (A F P : Option (SignatureHelper δ)) :
    pos_args_to_generate A F P = spec_merged_extra_positional_count A F P := by
  rcases A with _ | a <;> rcases F with _ | f <;> rcases P with _ | p <;>
    simp only [pos_args_to_generate, spec_merged_extra_positional_count,
      stage_floor_diff] <;> omega

/-- Auxiliary: a present action stage's own demand never exceeds the merged
positional count. -/
theorem action_diff_le_merged {δ : Type} (sigA : SignatureHelper δ)
    (F P : Option (SignatureHelper δ)) :
    (sigA.non_class_positional_args.length : Int)
        - action_min_required_call_args
      ≤ pos_args_to_generate (some sigA) F P := by
  rw [pos_args_to_generate_eq_spec]
  simp only [spec_merged_extra_positional_count, stage_floor_diff]
  omega

/-- Auxiliary: a present filter stage's own demand never exceeds the merged
positional count. -/
theorem filter_diff_le_merged {δ : Type} (sigF : SignatureHelper δ)
    (A P : Option (SignatureHelper δ)) :
    (sigF.non_class_positional_args.length : Int)
        - filter_min_required_call_args
      ≤ pos_args_to_generate A (some sigF) P := by
  rw [pos_args_to_generate_eq_spec]
  simp only [spec_merged_extra_positional_count, stage_floor_diff]
  omega

/-- Auxiliary: the names referenced by the expression
`cmp_to_key(self.preference)` — only the helper `cmp_to_key`; the
comparator itself is the attribute access `self.preference`, applied to
nothing. -/
theorem cmp_to_key_ref_names :
    (PExpr.pcall (PExpr.pname CMP_TO_KEY_NAME)
        [PExpr.self_attr PREFERENCE_FN_NAME] []).ref_names
      = [CMP_TO_KEY_NAME] := by
  simp [PExpr.ref_names, ref_names_args, ref_names_kwargs]

/-- Auxiliary: the names referenced by the generated ranking expression:
`nsmallest`, `len`, `partition`, whatever the element-source subexpression
references, and `cmp_to_key`. -/
theorem preference_expression_ref_names (sub : PExpr) :
    (preference_generate_expression sub).ref_names
      = [NSMALLEST_NAME, LEN_NAME, PARTITION_NAME] ++ sub.ref_names
        ++ [CMP_TO_KEY_NAME] := by
  simp [preference_generate_expression, PExpr.ref_names, ref_names_args,
    ref_names_kwargs, cmp_to_key_ref_names]

/-- Counterexample to claim C4: for a preference stage
`def preference(self, a, b, c)` declaring one extra positional parameter,
the merged signature does collect one extra slot (`arg_0`), yet the
generated ranking expression — including the comparator handed to
`cmp_to_key` — references no such slot, so the caller-supplied extra can
never reach a comparator call; the comparator is invoked with the two
compared elements only. -/
theorem claim_C4_counterexample :
    pos_args_to_generate none none (some sample_pref_extra_sig) = 1
      ∧ ("arg_0") ∉ (preference_generate_expression
          (PExpr.pname PARTITION_NAME)).ref_names := by
  refine ⟨by decide, ?_⟩
  rw [preference_expression_ref_names]
  simp [PExpr.ref_names, NSMALLEST_NAME, LEN_NAME, PARTITION_NAME,
    CMP_TO_KEY_NAME]

/-- Claim C4 (amended): the generated ranking step passes the comparator to
`cmp_to_key` as the bare bound method `self.preference`, so each comparator
call receives exactly the two compared elements and nothing else; the
pipeline's extra arguments are not threaded into it — the ranking
expression references no extra positional slot beyond whatever the
element-source subexpression references. -/
theorem claim_C4_amended_comparator_no_extras (sub : PExpr) :
    ((preference_generate_expression sub).pcall_kwargs
        = [(some KEY_KEYWORD,
            PExpr.pcall (PExpr.pname CMP_TO_KEY_NAME)
              [PExpr.self_attr PREFERENCE_FN_NAME] [])])
      ∧ forwarded_extra_slots (preference_generate_expression sub)
        = forwarded_extra_slots sub := by
  refine ⟨rfl, ?_⟩
  have h1 : List.filter
      (fun s => stem_matches positional_arg_stem.data s.data)
      [NSMALLEST_NAME, LEN_NAME, PARTITION_NAME] = [] := by decide
  have h2 : List.filter
      (fun s => stem_matches positional_arg_stem.data s.data)
      [CMP_TO_KEY_NAME] = [] := by decide
  unfold forwarded_extra_slots
  rw [preference_expression_ref_names, List.filter_append,
    List.filter_append, h1, h2]
  simp

/-- Counterexample to claim C5: a preference stage
`def preference(self, a, b, c)` declares one extra positional parameter
(`3 - 2 = 1`), and the merged signature accordingly exposes one extra slot;
but the comparator expression the generated code builds,
`cmp_to_key(self.preference)`, forwards zero extra slots — the preference
stage is not called with exactly its own number of extra positional
parameters. -/
theorem claim_C5_counterexample :
    pos_args_to_generate none none (some sample_pref_extra_sig) = 1
      ∧ ((sample_pref_extra_sig.non_class_positional_args.length : Int)
          - preference_min_required_call_args).toNat = 1
      ∧ forwarded_extra_slots
          (PExpr.pcall (PExpr.pname CMP_TO_KEY_NAME)
            [PExpr.self_attr PREFERENCE_FN_NAME] []) = []
      ∧ ¬ (forwarded_extra_slots
          (PExpr.pcall (PExpr.pname CMP_TO_KEY_NAME)
            [PExpr.self_attr PREFERENCE_FN_NAME] [])).length = 1 := by
  have h : forwarded_extra_slots
      (PExpr.pcall (PExpr.pname CMP_TO_KEY_NAME)
        [PExpr.self_attr PREFERENCE_FN_NAME] []) = [] := by
    unfold forwarded_extra_slots
    rw [cmp_to_key_ref_names]
    decide
  refine ⟨by decide, by decide, h, ?_⟩
  rw [h]
  decide

/-- Claim C5 (amended): the merged extra-positional count equals the
maximum over the present stages of their floored extra demands; the action
stage's generated call forwards `chosen` followed by exactly its own
number of extra slots — the head of the merged slot block, truncated to the
stage's own demand, never more; the filter stage's generated predicate call
does the same on its generator-expression path, and on its fast path the
generated expression is `filter(self.filter, partition)`, whose per-element
call passes the candidate alone.  The preference stage, by contrast, has
its comparator handed to `cmp_to_key` bare: its single generated keyword
argument forwards no extra slot at all, even when the stage declares
some. -/
theorem claim_C5_amended_positional_truncation {δ : Type} :
    (∀ A F P : Option (SignatureHelper δ),
      pos_args_to_generate A F P = spec_merged_extra_positional_count A F P)
    ∧ (∀ (sigA : SignatureHelper δ) (F P : Option (SignatureHelper δ)),
      plain_arg_names (action_generate_expression sigA).pcall_args
        = CHOSEN_NAME :: (generate_positional_args
            (pos_args_to_generate (some sigA) F P)).take
            ((sigA.non_class_positional_args.length : Int)
              - action_min_required_call_args).toNat)
    ∧ (∀ (sigF : SignatureHelper δ) (A P : Option (SignatureHelper δ)),
      (stage_call_args sigF filter_min_required_call_args).length
          + (stage_call_kwargs sigF).length > 1 →
      plain_arg_names ((filter_generate_expression sigF).genexp_cond).pcall_args
        = CHOSEN_NAME :: (generate_positional_args
            (pos_args_to_generate A (some sigF) P)).take
            ((sigF.non_class_positional_args.length : Int)
              - filter_min_required_call_args).toNat)
    ∧ (∀ sigF : SignatureHelper δ,
      ¬ (stage_call_args sigF filter_min_required_call_args).length
          + (stage_call_kwargs sigF).length > 1 →
      filter_generate_expression sigF
        = PExpr.pcall (PExpr.pname FILTER_FN_NAME)
            [PExpr.self_attr FILTER_FN_NAME, PExpr.pname PARTITION_NAME] [])
    ∧ (∀ sub : PExpr,
      (preference_generate_expression sub).pcall_kwargs.map
          (fun kv => forwarded_extra_slots kv.2) = [[]]) := by
  refine ⟨pos_args_to_generate_eq_spec, ?_, ?_, ?_, ?_⟩
  · intro sigA F P
    have h := plain_arg_names_stage_call sigA action_min_required_call_args
    simp only [action_generate_expression, PExpr.pcall_args]
    rw [h, ← generate_positional_args_take (action_diff_le_merged sigA F P)]
  · intro sigF A P hcond
    have h := plain_arg_names_stage_call sigF filter_min_required_call_args
    unfold filter_generate_expression
    simp only [if_pos hcond, PExpr.genexp_cond, PExpr.pcall_args]
    rw [h, ← generate_positional_args_take (filter_diff_le_merged sigF A P)]
  · intro sigF hcond
    unfold filter_generate_expression
    simp only [if_neg hcond]
  · intro sub
    have h : forwarded_extra_slots
        (PExpr.pcall (PExpr.pname CMP_TO_KEY_NAME)
          [PExpr.self_attr PREFERENCE_FN_NAME] []) = [] := by
      unfold forwarded_extra_slots
      rw [cmp_to_key_ref_names]
      decide
    simp [preference_generate_expression, PExpr.pcall_kwargs, h]

/-- Witness for claim C5: the filter stage `def filter(self, chosen, x)`
takes the generator-expression path and its generated predicate call
forwards `chosen` and exactly one slot, while the extras-free
`def filter(self, chosen)` takes the builtin-`filter` fast path. -/
theorem claim_C5_witness :
    plain_arg_names
        ((filter_generate_expression sample_filter_extra_sig).genexp_cond).pcall_args
      = CHOSEN_NAME :: (generate_positional_args
          (pos_args_to_generate none (some sample_filter_extra_sig)
            none)).take 1
    ∧ filter_generate_expression sample_filter_sig
      = PExpr.pcall (PExpr.pname FILTER_FN_NAME)
          [PExpr.self_attr FILTER_FN_NAME, PExpr.pname PARTITION_NAME] [] :=
  ⟨(claim_C5_amended_positional_truncation (δ := Int)).2.2.1
      sample_filter_extra_sig none none (by decide),
    (claim_C5_amended_positional_truncation (δ := Int)).2.2.2.1
      sample_filter_sig (by decide)⟩

/-- Claim C6 (settled against the spec-modelled validator, the code being
absent from src/): declaring `sort` together with an explicit preference
comparator, or `sort` together with `sort_key`, raises a declaration-time
configuration error, as does `sort_reverse` with none of `sort`,
`sort_key`, or a preference; in each invalid configuration class
construction yields the error and no pipeline. -/
theorem claim_C6_flag_validation {δ α : Type} :
    (∀ (A F : Option (SignatureHelper δ)) (sigP : SignatureHelper δ)
        (rev key : Bool),
      declare_controller (α := α) A F (some sigP) true rev key
        = Except.error ConfigurationError.sort_with_preference)
    ∧ (∀ (A F : Option (SignatureHelper δ)) (rev : Bool),
      declare_controller (α := α) A F none true rev true
        = Except.error ConfigurationError.sort_with_sort_key)
    ∧ (∀ A F : Option (SignatureHelper δ),
      declare_controller (α := α) A F none false true false
        = Except.error ConfigurationError.reverse_alone)
    ∧ (∀ (rev key : Bool) (pref : Bool),
      validate_ranking_flags true rev key true
          = Except.error ConfigurationError.sort_with_preference
        ∧ validate_ranking_flags true rev true pref
          = (if pref then Except.error ConfigurationError.sort_with_preference
            else Except.error ConfigurationError.sort_with_sort_key)
        ∧ validate_ranking_flags false true false false
          = Except.error ConfigurationError.reverse_alone) := by
  refine ⟨?_, ?_, ?_, ?_⟩
  · intro A F sigP rev key
    simp [declare_controller, validate_ranking_flags]
  · intro A F rev
    simp [declare_controller, validate_ranking_flags]
  · intro A F
    simp [declare_controller, validate_ranking_flags]
  · intro rev key pref
    refine ⟨by simp [validate_ranking_flags], ?_, by simp [validate_ranking_flags]⟩
    cases pref <;> simp [validate_ranking_flags]

/-- Counterexample to claim C9: on a callable whose source cannot be
fetched or parsed, `_parse_return_options` does not fail — the
`except BaseException` branch returns normally after emitting a warning, so
the inspection outcome is a usable result whose four return-option flags
hold their pre-set `False` defaults and whose `has_parse_error` flag is
`True`; no `InspectionError` propagates. -/
theorem claim_C9_counterexample :
    parse_return_options_outcome none
        = Except.ok
          { has_explicit_void_return := false,
            has_explicit_value_return := false,
            has_value_yield := false,
            has_value_yield_from := false,
            has_parse_error := true }
      ∧ parse_return_options none
        = (⟨false, false, false, false, true⟩, true) := by
  exact ⟨rfl, rfl⟩

/-- Claim C9 (amended): an inspection failure is recoverable, not fatal —
for every input the parse outcome is `ok` (never a propagated
`InspectionError`); the error flag and the warning are raised exactly when
the source could not be parsed, in which case the four return-option flags
stay at their pre-set `False` values. -/
theorem claim_C9_amended_recoverable_inspection :
    (∀ parsed : Option VisitorFlags,
      (parse_return_options_outcome parsed).isOk = true)
    ∧ (∀ parsed : Option VisitorFlags,
      (parse_return_options parsed).1.has_parse_error = parsed.isNone)
    ∧ (∀ parsed : Option VisitorFlags,
      (parse_return_options parsed).2 = parsed.isNone)
    ∧ (parse_return_options none).1
      = { has_explicit_void_return := false,
          has_explicit_value_return := false,
          has_value_yield := false,
          has_value_yield_from := false,
          has_parse_error := true } := by
  refine ⟨fun parsed => ?_, fun parsed => ?_, fun parsed => ?_, rfl⟩ <;>
    cases parsed <;> rfl

/-- Counterexample to claim C10: a callable whose signature cannot be
introspected — modelling `MethodInspector(min)`: `callable(min)` holds,
there is no `__wrapped__`, and `inspect.getfullargspec(min)` raises — does
not yield an inspector; since those calls sit outside any `try` in
`__init__` (method_inspector.py lines 22-28), the exception propagates, so
"for every callable input, construction succeeds" is false. -/
theorem claim_C10_counterexample :
    method_inspector_init (σ := Nat)
        { is_callable := true, dunder_name := some ("min"),
          has_wrapped := false, wrapped_argspec := none,
          own_argspec := none }
      = Except.error InitError.type_error := by
  rfl

/-- Claim C10 (amended): a non-callable input is rejected with the
`ValueError` naming the object (`UNKNOWN` fallback) and no inspector is
produced; a callable input succeeds only when the committed introspection
target — the `__wrapped__` target when that attribute exists, the callable
itself otherwise — is statically introspectable, in which case the
signature description is computed once from that target; when
`inspect.getfullargspec`/`inspect.signature` raise on the target, the
exception propagates out of `__init__` and construction fails. -/
theorem claim_C10_amended_inspector_init {σ : Type} (fn : PyCallableObj σ) :
    (fn.is_callable = false →
      method_inspector_init fn
        = Except.error (InitError.value_error
          ("MethodInspector expected a callable object, but \""
            ++ (match fn.dunder_name with
                | some n => n
                | none => "UNKNOWN")
            ++ "\" is not.")))
    ∧ (∀ s : σ, fn.is_callable = true → inspection_target fn = some s →
      method_inspector_init fn
        = Except.ok { spec := s, is_wrapped := fn.has_wrapped })
    ∧ (fn.is_callable = true → inspection_target fn = none →
      method_inspector_init fn = Except.error InitError.type_error) := by
  refine ⟨?_, ?_, ?_⟩
  · intro h
    simp [method_inspector_init, h]
  · intro s hc ht
    unfold inspection_target at ht
    cases hw : fn.has_wrapped <;> rw [hw] at ht <;> simp at ht <;>
      simp [method_inspector_init, hc, hw, ht]
  · intro hc ht
    unfold inspection_target at ht
    cases hw : fn.has_wrapped <;> rw [hw] at ht <;> simp at ht <;>
      simp [method_inspector_init, hc, hw, ht]

/-- Witness for claim C10 (amended): a non-callable object without
`__name__` is rejected with the `UNKNOWN` message; a callable with an
introspectable `__wrapped__` target is inspected through that target; a
callable whose `__wrapped__` target is not introspectable propagates the
introspection error. -/
theorem claim_C10_amended_inspector_init_witness :
    method_inspector_init (σ := Nat)
        { is_callable := false, dunder_name := none,
          has_wrapped := false, wrapped_argspec := none,
          own_argspec := some 0 }
      = Except.error (InitError.value_error
        ("MethodInspector expected a callable object, but \""
          ++ "UNKNOWN" ++ "\" is not."))
    ∧ method_inspector_init (σ := Nat)
        { is_callable := true, dunder_name := some ("f"),
          has_wrapped := true, wrapped_argspec := some 3,
          own_argspec := some 7 }
      = Except.ok { spec := 3, is_wrapped := true }
    ∧ method_inspector_init (σ := Nat)
        { is_callable := true, dunder_name := some ("g"),
          has_wrapped := true, wrapped_argspec := none,
          own_argspec := some 7 }
      = Except.error InitError.type_error :=
  ⟨(claim_C10_amended_inspector_init
      { is_callable := false, dunder_name := none,
        has_wrapped := false, wrapped_argspec := none,
        own_argspec := some 0 }).1 rfl,
    (claim_C10_amended_inspector_init
      { is_callable := true, dunder_name := some ("f"),
        has_wrapped := true, wrapped_argspec := some 3,
        own_argspec := some 7 }).2.1 3 rfl rfl,
    (claim_C10_amended_inspector_init
      { is_callable := true, dunder_name := some ("g"),
        has_wrapped := true, wrapped_argspec := none,
        own_argspec := some 7 }).2.2 rfl rfl⟩

end MetaControllers
